import Mathlib

/-!
Verification development for the ODC per-partition controller and
device-topology state machine (odc/Controller.h, odc/TopologyOpGetProperties.h,
odc/Params.h).  C++ functions are shallowly embedded as executable Lean
functions; external DDS/FairMQ calls are abstracted as explicit environment
records whose fields record the outcome of each call.
-/

namespace ODC

/-- Device states, from the device state machine (spec section 3; the numeric
enum lives in TopologyDefs.h which only callers in this tree include). -/
inductive DeviceState where
  | Undefined
  | Idle
  | InitializingDevice
  | Initialized
  | Binding
  | Bound
  | Connecting
  | DeviceReady
  | Ready
  | Running
  | ResettingTask
  | ResettingDevice
  | Exiting
  | Error
deriving DecidableEq, Repr

/-- Aggregated state: every device state (via the C++ static_cast embedding)
plus Mixed. -/
inductive AggregatedState where
  | state (s : DeviceState)
  | Mixed
deriving DecidableEq, Repr

/-- One entry of a TopologyState: task id with its current device state
(the fields of the per-task status record used by aggregation). -/
structure TaskStatus where
  taskId : Nat
  state : DeviceState
deriving DecidableEq, Repr

/-- Modelled from the spec: AggregateState (TopologyDefs.h, not part of this
tree).  Spec section 4.1 aggregation algorithm for a selection of task ids:
empty selection gives Undefined, one distinct state gives that state, two or
more give Mixed. -/
def AggregateState (ts : List TaskStatus) : AggregatedState :=
  match (ts.map TaskStatus.state).dedup with
  | [] => AggregatedState.state DeviceState.Undefined
  | [s] => AggregatedState.state s
  | _ :: _ :: _ => AggregatedState.Mixed

/-- Abstraction of the dds::topology_api::CTopology queries used by
Controller::aggregateStateForPath: exact runtime-task lookup by path
(getRuntimeTask, which throws when absent, here an Option) and the
path-matching runtime-task iterator (getRuntimeTaskIteratorMatchingPath). -/
structure DDSTopology where
  runtimeTask : String → Option Nat
  matchingTasks : String → List Nat

/-- Embedding of Controller::aggregateStateForPath (Controller.h).  An empty
path aggregates the whole topology state.  Otherwise the code first tries the
single-task branch; on failure it collects the matching task ids into a
std::set (iteration starts at the minimum), takes the state of the first
(minimum) matching id, and compares every selected recorded state against it.
C++ exceptions that escape the function are the Except.error values. -/
def aggregateStateForPath (ddsTopo : Option DDSTopology) (topoState : List TaskStatus)
    (path : String) : Except String AggregatedState :=
  if path = "" then
    Except.ok (AggregateState topoState)
  else
    match ddsTopo with
    | none => Except.error "DDS topology is not initialized"
    | some topo =>
      let singleBranch : Except String AggregatedState :=
        match topo.runtimeTask path with
        | none => Except.error ("Task not found for path " ++ path)
        | some tid =>
          match topoState.find? (fun v => v.taskId = tid) with
          | some v => Except.ok (AggregatedState.state v.state)
          | none => Except.error ("Device not found for path " ++ path)
      match singleBranch with
      | Except.ok r => Except.ok r
      | Except.error _ =>
        let taskIds := topo.matchingTasks path
        match taskIds.min? with
        | none => Except.error ("No tasks found matching the path " ++ path)
        | some minId =>
          match topoState.find? (fun v => v.taskId = minId) with
          | none => Except.error ("No states found for path " ++ path)
          | some firstV =>
            let first := AggregatedState.state firstV.state
            if topoState.all
                (fun v => if taskIds.contains v.taskId
                          then decide (AggregatedState.state v.state = first)
                          else true) then
              Except.ok first
            else
              Except.ok AggregatedState.Mixed

/-- Error codes used by the controller (odc/Error.h names, as referenced from
Controller.h). -/
inductive ErrorCode where
  | RequestNotSupported
  | RequestTimeout
  | DDSCreateSessionFailed
  | DDSAttachToSessionFailed
  | DDSShutdownSessionFailed
  | DDSSubmitAgentsFailed
  | DDSActivateTopologyFailed
  | DDSCreateTopologyFailed
  | DDSCommanderInfoFailed
  | DDSSubscribeToSessionFailed
  | ResourcePluginFailed
  | TopologyFailed
  | FairMQCreateTopologyFailed
  | FairMQChangeStateFailed
  | FairMQGetStateFailed
  | FairMQSetPropertiesFailed
  | DeviceGetPropertiesFailed
  | RuntimeError
deriving DecidableEq, Repr

/-- Device state-machine transitions (spec section 3). -/
inductive TopoTransition where
  | InitDevice
  | CompleteInit
  | Bind
  | Connect
  | InitTask
  | Run
  | Stop
  | ResetTask
  | ResetDevice
  | End
deriving DecidableEq, Repr

/-- Modelled from the spec: gExpectedState (TopologyDefs.h, not part of this
tree).  Spec section 3: each transition has a single expected post-state;
sections 4.2 and 8 fix the chain landmarks (Configure ends Ready, Start
Running, Stop Ready, Reset Idle, Terminate Exiting). -/
def gExpectedState (t : TopoTransition) : Option DeviceState :=
  match t with
  | TopoTransition.InitDevice => some DeviceState.InitializingDevice
  | TopoTransition.CompleteInit => some DeviceState.Initialized
  | TopoTransition.Bind => some DeviceState.Bound
  | TopoTransition.Connect => some DeviceState.DeviceReady
  | TopoTransition.InitTask => some DeviceState.Ready
  | TopoTransition.Run => some DeviceState.Running
  | TopoTransition.Stop => some DeviceState.Ready
  | TopoTransition.ResetTask => some DeviceState.DeviceReady
  | TopoTransition.ResetDevice => some DeviceState.Idle
  | TopoTransition.End => some DeviceState.Exiting

/-- Outcome of the inner Topology::ChangeState call (the Topology class is
external to this tree): success with the final topology state, failure with an
error code (isTimeout distinguishes OperationTimeout) and the current topology
state, or a thrown exception. -/
inductive ChangeStateCallOutcome where
  | ok (ts : List TaskStatus)
  | err (isTimeout : Bool) (ts : List TaskStatus)
  | thrown (ts : List TaskStatus)
deriving Repr

/-- Embedding of Controller::changeState (Controller.h).  Returns the success
flag, the error code recorded via fillError (none when successful) and the
aggregated state.  In this source every failure branch sets success to false
unconditionally: the attemptRecovery call next to it is commented out
(success = false; // attemptRecovery(...)), so the outcome never consults the
recovery logic.  The catch around AggregateState is unreachable here because
the spec-modelled AggregateState is total (it returns Mixed instead of
throwing). -/
def changeState (topologyInitialized : Bool) (transition : TopoTransition)
    (call : ChangeStateCallOutcome) : Bool × Option ErrorCode × Option AggregatedState :=
  if ¬topologyInitialized then
    (false, some ErrorCode.FairMQChangeStateFailed, none)
  else
    match gExpectedState transition with
    | none => (false, some ErrorCode.FairMQChangeStateFailed, none)
    | some _ =>
      match call with
      | ChangeStateCallOutcome.ok ts =>
        (true, none, some (AggregateState ts))
      | ChangeStateCallOutcome.err isTimeout _ =>
        if isTimeout then
          (false, some ErrorCode.RequestTimeout, none)
        else
          (false, some ErrorCode.FairMQChangeStateFailed, none)
      | ChangeStateCallOutcome.thrown _ =>
        (false, some ErrorCode.FairMQChangeStateFailed, none)

/-- Failed-collection record (TopoCollectionInfo fields used by
attemptRecovery): owning agent id, collection id and collection path. -/
structure TopoCollectionInfo where
  agentID : Nat
  collectionID : Nat
  path : String
deriving DecidableEq, Repr

/-- Per-group nMin record (SessionInfo::mNmin values): declared group size n
and the nmin bound, both uint64. -/
structure TopoGroupInfo where
  n : Nat
  nmin : Nat
deriving DecidableEq, Repr

/-- Environment for the external calls attemptRecovery performs after its
checks pass: the DDS runtime collection parent-group lookup, the agent-count
queries and shutdown commands (a thrown exception makes them fail), the UPDATE
activation of the rewritten topology, and the two topology rebuilds. -/
structure RecoveryEnv where
  parentOf : Nat → String
  agentOpsOk : Bool
  updateActivateOk : Bool
  recreateDDSTopoOk : Bool
  recreateTopoOk : Bool

/-- First loop body of Controller::attemptRecovery for one failed collection:
iterate over every nMin group in map order; any group whose name differs from
the collection's parent aborts recovery (none), a matching name increments
that group's failed-collection count. -/
def recordCollection (parentName : String) (counts : String → Nat) :
    List (String × TopoGroupInfo) → Option (String → Nat)
  | [] => some counts
  | (groupName, _) :: rest =>
    if parentName = groupName then
      recordCollection parentName
        (fun x => if x = groupName then counts x + 1 else counts x) rest
    else
      none

/-- First loop of Controller::attemptRecovery over all failed collections,
threading the failed-collection counts. -/
def recordAll (parentOf : Nat → String) (nmin : List (String × TopoGroupInfo))
    (counts : String → Nat) : List TopoCollectionInfo → Option (String → Nat)
  | [] => some counts
  | c :: rest =>
    match recordCollection (parentOf c.collectionID) counts nmin with
    | none => none
    | some counts2 => recordAll parentOf nmin counts2 rest

/-- The uint64 computation remaining = n - failedCount of attemptRecovery;
the C++ subtraction wraps modulo 2^64. -/
def remainingCount (n failedCount : Nat) : Nat :=
  (((n : Int) - (failedCount : Int)) % (2 : Int) ^ 64).toNat

/-- Embedding of Controller::attemptRecovery (Controller.h).  Nothing is
attempted (false without any action) unless at least one failed collection and
at least one nMin rule exist.  Then the first loop attributes failed
collections to groups (aborting when a parent is not an nMin group), the
second loop fails recovery when any group's remaining count drops below its
nmin, and finally the agent shutdowns, the topology rewrite, the UPDATE
activation and the two topology rebuilds must all succeed. -/
def attemptRecovery (env : RecoveryEnv) (nmin : List (String × TopoGroupInfo))
    (failedCollections : List TopoCollectionInfo) : Bool :=
  if ¬failedCollections.isEmpty ∧ ¬nmin.isEmpty then
    match recordAll env.parentOf nmin (fun _ => 0) failedCollections with
    | none => false
    | some counts =>
      if nmin.all (fun g => ¬(remainingCount g.2.n (counts g.1) < g.2.nmin)) then
        env.agentOpsOk && env.updateActivateOk && env.recreateDDSTopoOk &&
          env.recreateTopoOk
      else
        false
  else
    false

/-- Embedding of the template Controller::requestTimeout (Controller.h header):
the configured budget is the controller default when the request header's
timeout is 0; the remaining budget is the configured budget minus the elapsed
time (both in milliseconds, signed); a strictly negative remainder throws
RequestTimeout, otherwise the remainder is truncated to whole seconds. -/
def requestTimeout (mTimeout : Nat) (commonTimeout : Nat) (elapsedMs : Nat) :
    Except ErrorCode Nat :=
  let configuredS : Nat := if commonTimeout = 0 then mTimeout else commonTimeout
  let configuredMs : Int := (configuredS : Int) * 1000
  let realTimeoutMs : Int := configuredMs - (elapsedMs : Int)
  if realTimeoutMs < 0 then
    Except.error ErrorCode.RequestTimeout
  else
    Except.ok (realTimeoutMs / 1000).toNat

/-- The controller's default request timeout: mTimeout is 30 seconds unless
changed via setTimeout (Controller.h). -/
def defaultControllerTimeout : Nat := 30

/-- Modelled from the spec: completion code of a collective GetProperties
operation.  The AsioAsyncOp holder (AsioAsyncOp.h, not part of this tree)
completes an operation exactly once, either normally (Complete) or with a
Timeout error when the deadline timer fires. -/
inductive OpCompletion where
  | ok
  | deviceGetPropertiesFailed
  | timeout
deriving DecidableEq, Repr

/-- State of a GetPropertiesOp (TopologyOpGetProperties.h): the pending task
set mTasks, the accumulated per-device results and failed set (mResult), the
armed deadline timer, and the completion status of the inner AsioAsyncOp
(none while the operation is still outstanding). -/
structure GetPropsOp where
  tasks : List Nat
  devices : List (Nat × String)
  failed : List Nat
  timerArmed : Bool
  completed : Option OpCompletion
deriving DecidableEq, Repr

/-- Embedding of the GetPropertiesOp constructor: the timer is armed only for
a strictly positive timeout (milliseconds, signed); an empty task set is only
logged as a warning, no completion is triggered. -/
def mkGetPropertiesOp (tasks : List Nat) (timeoutMs : Int) : GetPropsOp :=
  { tasks := tasks
    devices := []
    failed := []
    timerArmed := timeoutMs > 0
    completed := none }

/-- Insertion into the failed set (std::unordered_set emplace: no duplicate). -/
def insertFailed (failed : List Nat) (taskId : Nat) : List Nat :=
  if failed.contains taskId then failed else taskId :: failed

/-- Embedding of GetPropertiesOp::Complete: cancel the timer and complete the
inner AsioAsyncOp with the given code. -/
def opComplete (op : GetPropsOp) (c : OpCompletion) : GetPropsOp :=
  { op with timerArmed := false, completed := some c }

/-- Embedding of GetPropertiesOp::TryCompletion: when not yet completed and no
task is pending, cancel the timer and complete with
DeviceGetPropertiesFailed when the failed set is non-empty, ok otherwise. -/
def opTryCompletion (op : GetPropsOp) : GetPropsOp :=
  if op.completed = none ∧ op.tasks.isEmpty then
    if ¬op.failed.isEmpty then
      opComplete op OpCompletion.deviceGetPropertiesFailed
    else
      opComplete op OpCompletion.ok
  else
    op

/-- Embedding of GetPropertiesOp::Update, handling one device reply: replies
for an already-completed operation or for a task id outside the pending set
are discarded without any state change; otherwise the payload is recorded (or
the task moved to the failed set on a non-Ok result), the task is removed from
the pending set and TryCompletion runs. -/
def opUpdate (op : GetPropsOp) (taskId : Nat) (resultOk : Bool) (props : String) :
    GetPropsOp :=
  if op.completed = none ∧ op.tasks.contains taskId then
    let op1 :=
      if resultOk then
        { op with devices := op.devices ++ [(taskId, props)] }
      else
        { op with failed := insertFailed op.failed taskId }
    opTryCompletion { op1 with tasks := op1.tasks.filter (fun t => t ≠ taskId) }
  else
    op

/-- Embedding of GetPropertiesOp::Ignore: remove the task from the pending set
without recording a result, then TryCompletion. -/
def opIgnore (op : GetPropsOp) (taskId : Nat) : GetPropsOp :=
  if op.completed = none ∧ op.tasks.contains taskId then
    opTryCompletion { op with tasks := op.tasks.filter (fun t => t ≠ taskId) }
  else
    op

/-- Embedding of the deadline-timer callback armed in the GetPropertiesOp
constructor: when the timer fires (it was armed and not cancelled; Complete
and TryCompletion cancel it), every still-pending task id is emplaced into
the failed set and the inner AsioAsyncOp completes with Timeout. -/
def opTimerFire (op : GetPropsOp) : GetPropsOp :=
  if op.timerArmed then
    { op with
      failed := op.tasks.foldl insertFailed op.failed
      timerArmed := false
      completed := some OpCompletion.timeout }
  else
    op

/-- Events that can reach an outstanding GetPropertiesOp after construction
(device replies, ignores, timer expiry). -/
inductive OpEvent where
  | update (taskId : Nat) (resultOk : Bool) (props : String)
  | ignore (taskId : Nat)
  | timerFire
deriving Repr

/-- Apply one event to a GetPropertiesOp. -/
def opStep (op : GetPropsOp) : OpEvent → GetPropsOp
  | OpEvent.update taskId resultOk props => opUpdate op taskId resultOk props
  | OpEvent.ignore taskId => opIgnore op taskId
  | OpEvent.timerFire => opTimerFire op

/-- Apply a sequence of events to a GetPropertiesOp. -/
def opRun (op : GetPropsOp) (events : List OpEvent) : GetPropsOp :=
  events.foldl opStep op

/-- Reply status codes (Params.h StatusCode). -/
inductive StatusCode where
  | unknown
  | ok
  | error
deriving DecidableEq, Repr

/-- DDS session status reported by Status (Params.h DDSSessionStatus). -/
inductive DDSSessionStatus where
  | unknown
  | running
  | stopped
deriving DecidableEq, Repr

/-- Per-partition session bookkeeping (Controller::SessionInfo as far as the
claims need it): the DDS session id (empty string standing for the nil uuid),
whether the session reports running, whether mDDSTopo and mTopology are set,
and the topology file path in effect. -/
structure SessionInfo where
  sessionId : String
  running : Bool
  hasDDSTopo : Bool
  hasTopology : Bool
  topoFilePath : String
deriving DecidableEq, Repr

/-- A SessionInfo as constructed by getOrCreateSessionInfo for a fresh
partition: a default dds::tools_api::CSession (nil session id, not running)
and null topology pointers. -/
def defaultSessionInfo : SessionInfo :=
  { sessionId := ""
    running := false
    hasDDSTopo := false
    hasTopology := false
    topoFilePath := "" }

/-- Process-wide controller state: the registry mSessions (an association list
keyed by partition id), the restore id (empty means no restore file is
maintained) and the current contents of the restore file as the list of
(partition id, session id) pairs. -/
structure CtrlState where
  sessions : List (String × SessionInfo)
  restoreId : String
  restoreFile : List (String × String)
deriving DecidableEq, Repr

/-- Registry lookup half of getOrCreateSessionInfo. -/
def getSession (st : CtrlState) (pid : String) : SessionInfo :=
  match st.sessions.find? (fun p => p.1 = pid) with
  | some p => p.2
  | none => defaultSessionInfo

/-- Registry insertion half of getOrCreateSessionInfo: create the entry with a
fresh default session when the partition id is not yet present. -/
def ensureSession (st : CtrlState) (pid : String) : CtrlState :=
  if (st.sessions.find? (fun p => p.1 = pid)).isSome then
    st
  else
    { st with sessions := st.sessions ++ [(pid, defaultSessionInfo)] }

/-- Overwrite a partition's SessionInfo in the registry (creating the entry
first when absent). -/
def setSession (st : CtrlState) (pid : String) (info : SessionInfo) : CtrlState :=
  let st1 := ensureSession st pid
  { st1 with
    sessions := st1.sessions.map (fun p => if p.1 = pid then (pid, info) else p) }

/-- Outcomes of the external DDS and plugin calls performed by the Initialize,
Submit, Activate, Run and Shutdown request handlers.  Each field records
whether (and how) the corresponding call succeeds. -/
structure DDSEnv where
  shutdownOk : Bool
  createOk : Bool
  createdSessionId : String
  subscribeSendOk : Bool
  attachOk : Bool
  attachedRunning : Bool
  commanderInfoOk : Bool
  activeTopologyPath : String
  pluginThrows : Bool
  submitBatches : List (Option ErrorCode)
  waitAgentsOk : Bool
  scriptOut : Except Unit String
  tmpWriteOk : Bool
  tmpPath : String
  activateOk : Bool
  activateTimedOut : Bool
  createDDSTopoOk : Bool
  createTopoOk : Bool

/-- Outcome of one inner controller step: the updated registry state, the
optional error recorded via fillError, and whether the step reported
success. -/
structure StepResult where
  state : CtrlState
  error : Option ErrorCode
  success : Bool

/-- Embedding of Controller::shutdownDDSSession: reset both topology pointers,
then shut the DDS session down when its id is not nil; failure (or a thrown
exception) records DDSShutdownSessionFailed. -/
def shutdownDDSSession (env : DDSEnv) (st : CtrlState) (pid : String) : StepResult :=
  let info := getSession st pid
  let info1 := { info with hasDDSTopo := false, hasTopology := false }
  if info1.sessionId = "" then
    { state := setSession st pid info1, error := none, success := true }
  else
    if env.shutdownOk then
      { state := setSession st pid { info1 with sessionId := "", running := false }
        error := none
        success := true }
    else
      { state := setSession st pid info1
        error := some ErrorCode.DDSShutdownSessionFailed
        success := false }

/-- Embedding of Controller::createDDSSession: create a fresh DDS session (the
environment supplies the new session id); a thrown exception records
DDSCreateSessionFailed. -/
def createDDSSession (env : DDSEnv) (st : CtrlState) (pid : String) : StepResult :=
  if env.createOk then
    { state := setSession st pid
        { getSession st pid with sessionId := env.createdSessionId, running := true }
      error := none
      success := true }
  else
    { state := st, error := some ErrorCode.DDSCreateSessionFailed, success := false }

/-- Embedding of Controller::attachToDDSSession: attach the partition's DDS
session to the given session id; a thrown exception records
DDSAttachToSessionFailed. -/
def attachToDDSSession (env : DDSEnv) (st : CtrlState) (pid : String)
    (sessionID : String) : StepResult :=
  if env.attachOk then
    { state := setSession st pid
        { getSession st pid with sessionId := sessionID, running := env.attachedRunning }
      error := none
      success := true }
  else
    { state := st, error := some ErrorCode.DDSAttachToSessionFailed, success := false }

/-- Embedding of Controller::subscribeToDDSSession: a running session is
required, then the OnTaskDone subscription request is sent (a thrown exception
fails the step); both failures record DDSSubscribeToSessionFailed. -/
def subscribeToDDSSession (env : DDSEnv) (st : CtrlState) (pid : String) : StepResult :=
  if (getSession st pid).running then
    if env.subscribeSendOk then
      { state := st, error := none, success := true }
    else
      { state := st, error := some ErrorCode.DDSSubscribeToSessionFailed, success := false }
  else
    { state := st, error := some ErrorCode.DDSSubscribeToSessionFailed, success := false }

/-- Embedding of Controller::createDDSTopology: build the
dds::topology_api::CTopology from the file and extract the nMin variables;
failure records DDSCreateTopologyFailed and leaves the previous pointer. -/
def createDDSTopology (env : DDSEnv) (st : CtrlState) (pid : String) : StepResult :=
  if env.createDDSTopoOk then
    { state := setSession st pid { getSession st pid with hasDDSTopo := true }
      error := none
      success := true }
  else
    { state := st, error := some ErrorCode.DDSCreateTopologyFailed, success := false }

/-- Embedding of Controller::createTopology: reset mTopology and build the
FairMQ topology handle; on an exception the pointer is left null and
FairMQCreateTopologyFailed is recorded. -/
def createTopology (env : DDSEnv) (st : CtrlState) (pid : String) : StepResult :=
  if env.createTopoOk then
    { state := setSession st pid { getSession st pid with hasTopology := true }
      error := none
      success := true }
  else
    { state := setSession st pid { getSession st pid with hasTopology := false }
      error := some ErrorCode.FairMQCreateTopologyFailed
      success := false }

/-- Embedding of Controller::updateRestore: no write when no restore id is
set; otherwise the restore file is rewritten with one (partition id, session
id) pair for every registry entry whose DDS session reports running. -/
def updateRestore (st : CtrlState) : CtrlState :=
  if st.restoreId = "" then
    st
  else
    { st with
      restoreFile :=
        (st.sessions.filter (fun p => p.2.running)).map
          (fun p => (p.1, p.2.sessionId)) }

/-- Reply envelope (Params.h RequestResult restricted to the fields the claims
observe).  The status code is error exactly when an error code is set. -/
structure ReqResult where
  statusCode : StatusCode
  msg : String
  error : Option ErrorCode
  sessionId : String
  aggregatedState : AggregatedState
deriving DecidableEq, Repr

/-- Embedding of Controller::createRequestResult: look up (or create) the
partition's session info to read its session id, and derive the status code
from the error field. -/
def createRequestResult (st : CtrlState) (pid : String) (error : Option ErrorCode)
    (msg : String) (aggrState : AggregatedState) : CtrlState × ReqResult :=
  let st1 := ensureSession st pid
  ( st1
  , { statusCode := if error.isSome then StatusCode.error else StatusCode.ok
      msg := msg
      error := error
      sessionId := (getSession st1 pid).sessionId
      aggregatedState := aggrState } )

/-- Embedding of Controller::checkSessionIsRunning: the given error code is
recorded when the partition's DDS session is not running. -/
def checkSessionIsRunning (st : CtrlState) (pid : String) (errorCode : ErrorCode) :
    CtrlState × Option ErrorCode :=
  let st1 := ensureSession st pid
  if (getSession st1 pid).running then
    (st1, none)
  else
    (st1, some errorCode)

/-- Embedding of Controller::execInitialize.  With an empty session id the
handler shuts down any existing session, creates a new one and subscribes to
task-done events; with a non-empty id it attaches instead and, when an active
topology is reported by the commander, rebuilds both topology handles.  In
either case the restore file is rewritten at the end. -/
def execInit (env : DDSEnv) (st : CtrlState) (pid : String) (sessionID : String) :
    CtrlState × ReqResult :=
  let st0 := ensureSession st pid
  let afterSteps : CtrlState × Option ErrorCode :=
    if sessionID = "" then
      let r1 := shutdownDDSSession env st0 pid
      if ¬r1.success then (r1.state, r1.error)
      else
        let r2 := createDDSSession env r1.state pid
        if ¬r2.success then (r2.state, r2.error)
        else
          let r3 := subscribeToDDSSession env r2.state pid
          (r3.state, r3.error)
    else
      let r1 := shutdownDDSSession env st0 pid
      if ¬r1.success then (r1.state, r1.error)
      else
        let r2 := attachToDDSSession env r1.state pid sessionID
        if ¬r2.success then (r2.state, r2.error)
        else
          let r3 := subscribeToDDSSession env r2.state pid
          if ¬r3.success then (r3.state, r3.error)
          else
            if env.commanderInfoOk then
              if env.activeTopologyPath = "" then (r3.state, none)
              else
                let r4 := createDDSTopology env r3.state pid
                if ¬r4.success then (r4.state, r4.error)
                else
                  let r5 := createTopology env r4.state pid
                  (r5.state, r5.error)
            else
              (r3.state, some ErrorCode.DDSCommanderInfoFailed)
  let st2 := updateRestore afterSteps.1
  createRequestResult st2 pid afterSteps.2 "Initialize done"
    (AggregatedState.state DeviceState.Undefined)

/-- Embedding of the submitDDSAgents loop of Controller::execSubmit: submit
each batch in order and stop at the first failing one. -/
def submitLoop : List (Option ErrorCode) → Option ErrorCode
  | [] => none
  | none :: rest => submitLoop rest
  | some e :: _ => some e

/-- Embedding of Controller::execSubmit: require a running session, obtain the
batch descriptors from the resource plugin (ResourcePluginFailed when it
throws), submit every batch (stopping at the first failure), then wait for the
total number of required slots (RequestTimeout on expiry). -/
def execSubmit (env : DDSEnv) (st : CtrlState) (pid : String) : CtrlState × ReqResult :=
  let chk := checkSessionIsRunning st pid ErrorCode.DDSSubmitAgentsFailed
  let err : Option ErrorCode :=
    match chk.2 with
    | some e => some e
    | none =>
      if env.pluginThrows then some ErrorCode.ResourcePluginFailed
      else
        match submitLoop env.submitBatches with
        | some e => some e
        | none => if env.waitAgentsOk then none else some ErrorCode.RequestTimeout
  createRequestResult chk.1 pid err "Submit done" (AggregatedState.state DeviceState.Undefined)

/-- Embedding of Controller::topoFilepath: exactly one of file, content or
script must be set (otherwise a runtime error is thrown); a file path is used
directly; a script is executed to produce the content (a failing script
throws); the content is written to a fresh temporary file (a failing open
throws). -/
def topoFilepath (env : DDSEnv) (topologyFile topologyContent topologyScript : String) :
    Except Unit String :=
  let count := (if topologyFile = "" then 0 else 1) + (if topologyContent = "" then 0 else 1)
    + (if topologyScript = "" then 0 else 1)
  if count ≠ 1 then
    Except.error ()
  else if topologyFile ≠ "" then
    Except.ok topologyFile
  else
    let contentE : Except Unit String :=
      if topologyScript ≠ "" then env.scriptOut else Except.ok topologyContent
    match contentE with
    | Except.error e => Except.error e
    | Except.ok _ =>
      if env.tmpWriteOk then Except.ok env.tmpPath else Except.error ()

/-- Embedding of Controller::activateDDSTopology: run the topology request
with the given update type; an error message from DDS records
DDSActivateTopologyFailed, an expired wait records RequestTimeout. -/
def activateDDSTopology (env : DDSEnv) (st : CtrlState) (_pid : String) : StepResult :=
  if env.activateOk then
    { state := st, error := none, success := true }
  else if env.activateTimedOut then
    { state := st, error := some ErrorCode.RequestTimeout, success := false }
  else
    { state := st, error := some ErrorCode.DDSActivateTopologyFailed, success := false }

/-- Embedding of Controller::execActivate: require a running session,
materialize the topology description (TopologyFailed when topoFilepath
throws), store the path in the session info, then activate the DDS topology
and build both topology handles; the reported aggregated state is Idle on
success and Undefined on error. -/
def execActivate (env : DDSEnv) (st : CtrlState) (pid : String)
    (topologyFile topologyContent topologyScript : String) : CtrlState × ReqResult :=
  let st0 := ensureSession st pid
  let chk := checkSessionIsRunning st0 pid ErrorCode.DDSActivateTopologyFailed
  let afterSteps : CtrlState × Option ErrorCode :=
    match chk.2 with
    | some e => (chk.1, some e)
    | none =>
      match topoFilepath env topologyFile topologyContent topologyScript with
      | Except.error _ => (chk.1, some ErrorCode.TopologyFailed)
      | Except.ok path =>
        let st2 := setSession chk.1 pid { getSession chk.1 pid with topoFilePath := path }
        let r1 := activateDDSTopology env st2 pid
        if ¬r1.success then (r1.state, r1.error)
        else
          let r2 := createDDSTopology env r1.state pid
          if ¬r2.success then (r2.state, r2.error)
          else
            let r3 := createTopology env r2.state pid
            (r3.state, r3.error)
  let aggr := if afterSteps.2.isSome then AggregatedState.state DeviceState.Undefined
              else AggregatedState.state DeviceState.Idle
  createRequestResult afterSteps.1 pid afterSteps.2 "Activate done" aggr

/-- Embedding of Controller::execRun: a non-empty session id is rejected with
RequestNotSupported before any step runs; otherwise Initialize, Submit and
Activate execute consecutively, each step only when the previous one left no
error; the reported aggregated state is Idle exactly when no error
remains. -/
def execRun (env : DDSEnv) (st : CtrlState) (pid : String) (sessionID : String)
    (topologyFile topologyContent topologyScript : String) : CtrlState × ReqResult :=
  let afterSteps : CtrlState × Option ErrorCode :=
    if ¬(sessionID = "") then
      (st, some ErrorCode.RequestNotSupported)
    else
      let rI := execInit env st pid sessionID
      match rI.2.error with
      | some e => (rI.1, some e)
      | none =>
        let rS := execSubmit env rI.1 pid
        match rS.2.error with
        | some e => (rS.1, some e)
        | none =>
          let rA := execActivate env rS.1 pid topologyFile topologyContent topologyScript
          (rA.1, rA.2.error)
  let aggr := if afterSteps.2.isSome then AggregatedState.state DeviceState.Undefined
              else AggregatedState.state DeviceState.Idle
  createRequestResult afterSteps.1 pid afterSteps.2 "Run done" aggr

/-- Embedding of Controller::execShutdown: shut the DDS session down; nothing
else — in particular the registry entry is kept and the restore file is not
rewritten. -/
def execShutdown (env : DDSEnv) (st : CtrlState) (pid : String) : CtrlState × ReqResult :=
  let r := shutdownDDSSession env st pid
  createRequestResult r.state pid r.error "Shutdown done"
    (AggregatedState.state DeviceState.Undefined)

/-- The three-step sequence of the spec, written from its words: execute
Initialize with an empty session id, then Submit, then Activate, under the
common header; any step's failure aborts the remaining steps and the sequence
yields that step's error together with the state that step left behind; on
success the final reply is Activate's. -/
def runSpecSequence (env : DDSEnv) (st : CtrlState) (pid : String)
    (topologyFile topologyContent topologyScript : String) : CtrlState × ReqResult :=
  let rI := execInit env st pid ""
  if rI.2.error.isSome then rI
  else
    let rS := execSubmit env rI.1 pid
    if rS.2.error.isSome then rS
    else execActivate env rS.1 pid topologyFile topologyContent topologyScript

/-- Per-partition status record (Params.h PartitionStatus) with its default
field values: session status unknown and aggregated state Undefined. -/
structure PartitionStatus where
  pid : String
  sessionId : String
  sessionStatus : DDSSessionStatus
  aggregatedState : AggregatedState
deriving DecidableEq, Repr

/-- Status reply (Params.h StatusRequestResult restricted to the observed
fields). -/
structure StatusResult where
  statusCode : StatusCode
  msg : String
  partitions : List PartitionStatus
deriving DecidableEq, Repr

/-- What execStatus can observe about one registry entry: the session-id and
is-running probes on the DDS session (none models a thrown exception), the
mDDSTopo pointer, whether mTopology is set, and the state snapshot returned by
Topology::GetCurrentState (whose class is external to this tree; an error
models a throw anywhere inside the aggregation probe). -/
structure StatusPartition where
  pid : String
  sidProbe : Option String
  runningProbe : Option Bool
  topo : Option DDSTopology
  hasTopology : Bool
  currentState : Except String (List TaskStatus)

/-- The first try block of Controller::execStatus: fill session id and session
status, keeping the defaults from the point where a probe throws. -/
def probeSessionFields (p : StatusPartition) : String × DDSSessionStatus :=
  match p.sidProbe with
  | none => ("", DDSSessionStatus.unknown)
  | some sid =>
    match p.runningProbe with
    | none => (sid, DDSSessionStatus.unknown)
    | some b => (sid, if b then DDSSessionStatus.running else DDSSessionStatus.stopped)

/-- The second try block of Controller::execStatus: when both topology handles
exist, aggregate the current state over the empty path; a throw anywhere in
the probe leaves the default Undefined. -/
def probeAggregatedState (p : StatusPartition) : AggregatedState :=
  if p.hasTopology ∧ p.topo.isSome then
    match p.currentState with
    | Except.error _ => AggregatedState.state DeviceState.Undefined
    | Except.ok ts =>
      match aggregateStateForPath p.topo ts "" with
      | Except.ok s => s
      | Except.error _ => AggregatedState.state DeviceState.Undefined
  else
    AggregatedState.state DeviceState.Undefined

/-- Embedding of Controller::execStatus: enumerate the registry, probe each
partition (exceptions only log and leave default fields), keep a partition
when the running filter is off or its session status is running, and always
finish with status code ok. -/
def execStatus (runningFilter : Bool) (parts : List StatusPartition) : StatusResult :=
  { statusCode := StatusCode.ok
    msg := "Status done"
    partitions :=
      parts.filterMap (fun p =>
        let fields := probeSessionFields p
        if (runningFilter ∧ fields.2 = DDSSessionStatus.running) ∨ ¬runningFilter then
          some { pid := p.pid
                 sessionId := fields.1
                 sessionStatus := fields.2
                 aggregatedState := probeAggregatedState p }
        else
          none) }

/-- Embedding of Controller::changeStateConfigure: drive the selection through
InitDevice, CompleteInit, Bind, Connect and InitTask, stopping at the first
failing step; the error and aggregated-state output parameters keep the last
written values. -/
def changeStateConfigure (topologyInitialized : Bool)
    (calls : TopoTransition → ChangeStateCallOutcome) :
    Bool × Option ErrorCode × Option AggregatedState :=
  [TopoTransition.InitDevice, TopoTransition.CompleteInit, TopoTransition.Bind,
   TopoTransition.Connect, TopoTransition.InitTask].foldl
    (fun acc t =>
      if acc.1 then
        let r := changeState topologyInitialized t (calls t)
        (r.1, r.2.1, match r.2.2 with | some a => some a | none => acc.2.2)
      else acc)
    (true, none, none)

/-- A DDS topology whose path queries match nothing (used as a concrete
input). -/
def topoNoTasks : DDSTopology :=
  { runtimeTask := fun _ => none, matchingTasks := fun _ => [] }

/-- A DDS topology with two tasks matching every non-exact path (used as a
concrete input). -/
def topoTwoTasks : DDSTopology :=
  { runtimeTask := fun _ => none, matchingTasks := fun _ => [1, 2] }

/-- A recovery environment in which every external recovery action succeeds
and every collection's parent is the group named g. -/
def recoveryEnvAllOk : RecoveryEnv :=
  { parentOf := fun _ => "g"
    agentOpsOk := true
    updateActivateOk := true
    recreateDDSTopoOk := true
    recreateTopoOk := true }

/-- An environment in which every external DDS call succeeds; the created
session id is s1. -/
def sampleEnv : DDSEnv :=
  { shutdownOk := true
    createOk := true
    createdSessionId := "s1"
    subscribeSendOk := true
    attachOk := true
    attachedRunning := true
    commanderInfoOk := true
    activeTopologyPath := ""
    pluginThrows := false
    submitBatches := [none]
    waitAgentsOk := true
    scriptOut := Except.ok "content"
    tmpWriteOk := true
    tmpPath := "/tmp/topology.xml"
    activateOk := true
    activateTimedOut := false
    createDDSTopoOk := true
    createTopoOk := true }

/-- An initially empty controller state maintaining a restore file. -/
def emptyCtrlState : CtrlState :=
  { sessions := [], restoreId := "rid", restoreFile := [] }

/-- A registry entry whose session probes throw and whose state probe throws
as well (used as a concrete input for Status). -/
def throwingStatusPartition : StatusPartition :=
  { pid := "p"
    sidProbe := none
    runningProbe := none
    topo := some topoNoTasks
    hasTopology := true
    currentState := Except.error "probe failed" }

/-! Theorems. -/

/-- C1: corrected.  Counterexample to the claim as stated: over a non-empty
path whose selection of devices is empty, aggregateStateForPath raises the
error No tasks found matching the path instead of returning Undefined. -/
theorem C1_counterexample :
    aggregateStateForPath (some topoNoTasks) [] "a"
      = Except.error "No tasks found matching the path a" := by
  rfl

/-- C1 amended: over the empty path an empty topology state aggregates to
Undefined; over a non-empty path an empty selection raises the error No tasks
found matching the path; when every selected task has a recorded state, one
distinct state among the selection yields that state and two or more distinct
states yield Mixed. -/
theorem C1_aggregateStateForPath_amended (topo : DDSTopology) (ts : List TaskStatus)
    (path : String) (s : DeviceState) :
    (∀ topoOpt : Option DDSTopology,
        aggregateStateForPath topoOpt [] ""
          = Except.ok (AggregatedState.state DeviceState.Undefined))
    ∧ (path ≠ "" → topo.runtimeTask path = none → topo.matchingTasks path = [] →
        aggregateStateForPath (some topo) ts path
          = Except.error ("No tasks found matching the path " ++ path))
    ∧ (path ≠ "" → topo.runtimeTask path = none →
        topo.matchingTasks path ≠ [] →
        (∀ tid ∈ topo.matchingTasks path, ∃ v ∈ ts, v.taskId = tid) →
        (∀ v ∈ ts, v.taskId ∈ topo.matchingTasks path → v.state = s) →
        aggregateStateForPath (some topo) ts path = Except.ok (AggregatedState.state s))
    ∧ (∀ v1 ∈ ts, ∀ v2 ∈ ts, path ≠ "" → topo.runtimeTask path = none →
        v1.taskId ∈ topo.matchingTasks path → v2.taskId ∈ topo.matchingTasks path →
        v1.state ≠ v2.state →
        (∀ tid ∈ topo.matchingTasks path, ∃ v ∈ ts, v.taskId = tid) →
        aggregateStateForPath (some topo) ts path = Except.ok AggregatedState.Mixed) := by
  refine ⟨fun topoOpt => by cases topoOpt <;> rfl, ?_, ?_, ?_⟩
  · intro hpath hrt hmatch
    simp [aggregateStateForPath, hpath, hrt, hmatch]
  · intro hpath hrt hne hpresent hsame
    obtain ⟨m, hmmem⟩ : ∃ m, (topo.matchingTasks path).min? = some m := by
      cases h : (topo.matchingTasks path).min? with
      | none => exact absurd (List.min?_eq_none_iff.mp h) hne
      | some m => exact ⟨m, rfl⟩
    have hm_mem : m ∈ topo.matchingTasks path := List.min?_mem min_choice hmmem
    obtain ⟨v, hv_mem, hv_id⟩ := hpresent m hm_mem
    obtain ⟨w, hw⟩ : ∃ w, ts.find? (fun v => v.taskId = m) = some w := by
      cases hf : ts.find? (fun v => v.taskId = m) with
      | none =>
        have hnone := List.find?_eq_none.mp hf v hv_mem
        simp [hv_id] at hnone
      | some w => exact ⟨w, rfl⟩
    have hw_id : w.taskId = m := by
      have := List.find?_some hw
      simpa using this
    have hw_mem : w ∈ ts := List.mem_of_find?_eq_some hw
    have hw_state : w.state = s := hsame w hw_mem (hw_id ▸ hm_mem)
    simp [aggregateStateForPath, hpath, hrt, hmmem, hw, hw_state]
    exact hsame
  · intro v1 hv1 v2 hv2 hpath hrt hm1 hm2 hdiff hpresent
    obtain ⟨m, hmmem⟩ : ∃ m, (topo.matchingTasks path).min? = some m := by
      cases h : (topo.matchingTasks path).min? with
      | none =>
        rw [List.min?_eq_none_iff] at h
        rw [h] at hm1
        exact absurd hm1 (List.not_mem_nil _)
      | some m => exact ⟨m, rfl⟩
    have hm_mem : m ∈ topo.matchingTasks path := List.min?_mem min_choice hmmem
    obtain ⟨v, hv_mem, hv_id⟩ := hpresent m hm_mem
    obtain ⟨w, hw⟩ : ∃ w, ts.find? (fun v => v.taskId = m) = some w := by
      cases hf : ts.find? (fun v => v.taskId = m) with
      | none =>
        have hnone := List.find?_eq_none.mp hf v hv_mem
        simp [hv_id] at hnone
      | some w => exact ⟨w, rfl⟩
    simp [aggregateStateForPath, hpath, hrt, hmmem, hw]
    by_cases hd1 : v1.state = w.state
    · exact ⟨v2, hv2, hm2, fun h2 => hdiff (hd1.trans h2.symm)⟩
    · exact ⟨v1, hv1, hm1, hd1⟩

/-- C1 amended, applied at concrete inputs: the empty path over an empty state
aggregates to Undefined; the path a with no matching task raises the error;
two tasks both Idle aggregate to Idle; an Idle task and a Ready task aggregate
to Mixed. -/
theorem C1_aggregateStateForPath_amended_witness :
    aggregateStateForPath none [] ""
      = Except.ok (AggregatedState.state DeviceState.Undefined)
    ∧ aggregateStateForPath (some topoNoTasks) [⟨1, DeviceState.Idle⟩] "a"
      = Except.error ("No tasks found matching the path " ++ "a")
    ∧ aggregateStateForPath (some topoTwoTasks)
        [⟨1, DeviceState.Idle⟩, ⟨2, DeviceState.Idle⟩] "a"
      = Except.ok (AggregatedState.state DeviceState.Idle)
    ∧ aggregateStateForPath (some topoTwoTasks)
        [⟨1, DeviceState.Idle⟩, ⟨2, DeviceState.Ready⟩] "a"
      = Except.ok AggregatedState.Mixed := by
  refine ⟨(C1_aggregateStateForPath_amended topoNoTasks [] "a" DeviceState.Idle).1 none,
    (C1_aggregateStateForPath_amended topoNoTasks [⟨1, DeviceState.Idle⟩] "a"
      DeviceState.Idle).2.1 (by decide) rfl rfl,
    (C1_aggregateStateForPath_amended topoTwoTasks
      [⟨1, DeviceState.Idle⟩, ⟨2, DeviceState.Idle⟩] "a" DeviceState.Idle).2.2.1
      (by decide) rfl (by decide) (by decide) (by decide),
    (C1_aggregateStateForPath_amended topoTwoTasks
      [⟨1, DeviceState.Idle⟩, ⟨2, DeviceState.Ready⟩] "a" DeviceState.Idle).2.2.2
      ⟨1, DeviceState.Idle⟩ (by decide) ⟨2, DeviceState.Ready⟩ (by decide)
      (by decide) rfl (by decide) (by decide) (by decide) (by decide)⟩

/-- C6: corrected.  Counterexample to the claim as stated: with a configured
timeout of 1 second and exactly 1000 ms elapsed the remaining time is zero
(non-positive), yet requestTimeout does not fail: it returns a zero budget. -/
theorem C6_counterexample :
    requestTimeout 30 1 1000 = Except.ok 0 := by
  rfl

/-- Nat-level characterization of requestTimeout: an error exactly when the
elapsed milliseconds strictly exceed the configured budget, otherwise the
remaining budget truncated to seconds. -/
theorem requestTimeout_char (mT cT e : Nat) :
    requestTimeout mT cT e =
      if (if cT = 0 then mT else cT) * 1000 < e then
        Except.error ErrorCode.RequestTimeout
      else
        Except.ok (((if cT = 0 then mT else cT) * 1000 - e) / 1000) := by
  unfold requestTimeout
  set k : Nat := if cT = 0 then mT else cT with hk
  by_cases h : k * 1000 < e
  · have h2 : (k : Int) * 1000 - (e : Int) < 0 := by omega
    simp [h, h2]
  · have h2 : ¬((k : Int) * 1000 - (e : Int) < 0) := by omega
    have h3 : (k : Int) * 1000 - (e : Int) = ((k * 1000 - e : Nat) : Int) := by omega
    simp only [h, h2, h3, if_neg, if_false]
    norm_cast

/-- C6 amended: the remaining budget is the configured timeout minus the
elapsed time, and the step fails with RequestTimeout exactly when the elapsed
time strictly exceeds the configured budget; at exactly zero remaining the
step proceeds with a zero budget. -/
theorem C6_requestTimeout_amended (mT cT e : Nat) :
    (requestTimeout mT cT e = Except.error ErrorCode.RequestTimeout
      ↔ (if cT = 0 then mT else cT) * 1000 < e)
    ∧ requestTimeout mT cT ((if cT = 0 then mT else cT) * 1000) = Except.ok 0 := by
  constructor
  · rw [requestTimeout_char]
    by_cases h : (if cT = 0 then mT else cT) * 1000 < e <;> simp [h]
  · rw [requestTimeout_char]
    simp

/-- C8: confirmed.  A request-header timeout of 0 makes the controller use its
configured mTimeout (30 seconds by default) as the total budget, so with no
time elapsed the step never fails: it returns the full budget. -/
theorem C8_zeroTimeoutUsesDefault (mT cT : Nat) :
    (∀ e, requestTimeout mT 0 e = requestTimeout mT mT e)
    ∧ defaultControllerTimeout = 30
    ∧ requestTimeout mT cT 0 = Except.ok (if cT = 0 then mT else cT) := by
  refine ⟨fun e => by simp [requestTimeout, ite_self], rfl, ?_⟩
  rw [requestTimeout_char]
  set k : Nat := if cT = 0 then mT else cT with hk
  simp [Nat.mul_div_cancel]

/-- C2: corrected.  Counterexample to the claim as stated: in a configuration
where a failed collection exists, an nMin rule exists and attemptRecovery
would succeed, a failed Configure-chain state change still returns the
transition error: changeState sets success to false unconditionally (the
attemptRecovery call next to it is commented out), so the composite never
returns ok through recovery. -/
theorem C2_counterexample :
    attemptRecovery recoveryEnvAllOk [("g", ⟨4, 2⟩)] [⟨7, 11, "path1"⟩] = true
    ∧ changeStateConfigure true
        (fun _ => ChangeStateCallOutcome.err false [⟨1, DeviceState.Idle⟩])
      = (false, some ErrorCode.FairMQChangeStateFailed, none) := by
  exact ⟨rfl, rfl⟩

/-- C2 amended: the attemptRecovery routine proceeds only when at least one
failed collection and at least one nMin rule exist, and fails whenever some
group's remaining count n minus failed count drops below its nMin; but the
partition controller never invokes it: on a failed Configure-chain transition
changeState unconditionally reports the transition error (RequestTimeout for a
timed-out transition, FairMQChangeStateFailed otherwise), so the composite
operation returns that error regardless of recovery. -/
theorem C2_amended (env : RecoveryEnv)
    (nmin : List (String × TopoGroupInfo)) (fcs : List TopoCollectionInfo) :
    (attemptRecovery env nmin fcs = true → fcs ≠ [] ∧ nmin ≠ [])
    ∧ (∀ counts g gi, recordAll env.parentOf nmin (fun _ => 0) fcs = some counts →
        (g, gi) ∈ nmin → remainingCount gi.n (counts g) < gi.nmin →
        attemptRecovery env nmin fcs = false)
    ∧ (∀ tr isT ts, changeState true tr (ChangeStateCallOutcome.err isT ts)
        = (false, some (if isT then ErrorCode.RequestTimeout
                        else ErrorCode.FairMQChangeStateFailed), none))
    ∧ (∀ calls isT ts,
        calls TopoTransition.InitDevice = ChangeStateCallOutcome.err isT ts →
        (changeStateConfigure true calls)
          = (false, some (if isT then ErrorCode.RequestTimeout
                          else ErrorCode.FairMQChangeStateFailed), none)) := by
  refine ⟨?_, ?_, ?_, ?_⟩
  · intro h
    constructor
    · intro hfcs
      rw [hfcs] at h
      simp [attemptRecovery] at h
    · intro hnmin
      rw [hnmin] at h
      simp [attemptRecovery] at h
  · intro counts g gi hrec hmem hlt
    unfold attemptRecovery
    by_cases hguard : ¬fcs.isEmpty ∧ ¬nmin.isEmpty
    · rw [if_pos hguard]
      simp only [hrec]
      have hall : (nmin.all fun g2 =>
          decide ¬(remainingCount g2.2.n (counts g2.1) < g2.2.nmin)) = false := by
        rw [List.all_eq_false]
        exact ⟨(g, gi), hmem, by simpa using hlt⟩
      rw [hall]
      simp
    · rw [if_neg hguard]
  · intro tr isT ts
    cases tr <;> cases isT <;> rfl
  · intro calls isT ts hcall
    simp only [changeStateConfigure, List.foldl]
    rw [hcall]
    cases isT <;> rfl


/-- C2 amended, applied at concrete inputs: recovery returning true forces
both inputs non-empty; with n 4, nMin 4 and one failed collection recovery
fails; a Configure chain whose first transition times out reports
RequestTimeout. -/
theorem C2_amended_witness :
    (([⟨7, 11, "path1"⟩] : List TopoCollectionInfo) ≠ []
      ∧ ([(("g", ⟨4, 2⟩) : String × TopoGroupInfo)] ≠ []))
    ∧ attemptRecovery recoveryEnvAllOk [("g", ⟨4, 4⟩)] [⟨7, 11, "path1"⟩] = false
    ∧ changeStateConfigure true (fun _ => ChangeStateCallOutcome.err true [])
        = (false, some ErrorCode.RequestTimeout, none) := by
  refine ⟨(C2_amended recoveryEnvAllOk [("g", ⟨4, 2⟩)] [⟨7, 11, "path1"⟩]).1 (by decide),
    ?_, ?_⟩
  · exact (C2_amended recoveryEnvAllOk [("g", ⟨4, 4⟩)] [⟨7, 11, "path1"⟩]).2.1
      (fun x => if x = "g" then 1 else 0) "g" ⟨4, 4⟩ rfl (by decide) (by decide)
  · exact (C2_amended recoveryEnvAllOk [] []).2.2.2
      (fun _ => ChangeStateCallOutcome.err true []) true [] rfl

/-- C5: confirmed.  A Run request with a non-empty session id is rejected
before Initialize, Submit or Activate run: the reply is exactly the
RequestNotSupported error envelope computed from the incoming state, with
status code ERROR. -/
theorem C5_runRejects (env : DDSEnv) (st : CtrlState) (pid sid f c s : String)
    (h : sid ≠ "") :
    execRun env st pid sid f c s
      = createRequestResult st pid (some ErrorCode.RequestNotSupported) "Run done"
          (AggregatedState.state DeviceState.Undefined)
    ∧ (execRun env st pid sid f c s).2.statusCode = StatusCode.error
    ∧ (execRun env st pid sid f c s).2.error = some ErrorCode.RequestNotSupported := by
  have h1 : execRun env st pid sid f c s
      = createRequestResult st pid (some ErrorCode.RequestNotSupported) "Run done"
          (AggregatedState.state DeviceState.Undefined) := by
    simp [execRun, h]
  exact ⟨h1, by rw [h1]; rfl, by rw [h1]; rfl⟩

/-- C5 applied at a concrete input: Run with session id sid9 ends with status
ERROR and error code RequestNotSupported. -/
theorem C5_witness :
    (execRun sampleEnv emptyCtrlState "p" "sid9" "t.xml" "" "").2.statusCode
      = StatusCode.error
    ∧ (execRun sampleEnv emptyCtrlState "p" "sid9" "t.xml" "" "").2.error
      = some ErrorCode.RequestNotSupported :=
  ⟨(C5_runRejects sampleEnv emptyCtrlState "p" "sid9" "t.xml" "" "" (by decide)).2.1,
   (C5_runRejects sampleEnv emptyCtrlState "p" "sid9" "t.xml" "" "" (by decide)).2.2⟩

/-- C9: confirmed.  execStatus always finishes with status code ok, and a
partition whose session-id probe throws and whose aggregated-state probe
throws is still reported under the running filter off with session status
unknown and aggregated state Undefined. -/
theorem C9_statusAlwaysOk (runningFilter : Bool) (parts : List StatusPartition)
    (p : StatusPartition) (msg : String) :
    (execStatus runningFilter parts).statusCode = StatusCode.ok
    ∧ (execStatus runningFilter parts).msg = "Status done"
    ∧ (p ∈ parts → p.sidProbe = none → p.currentState = Except.error msg →
        { pid := p.pid
          sessionId := ""
          sessionStatus := DDSSessionStatus.unknown
          aggregatedState := AggregatedState.state DeviceState.Undefined }
          ∈ (execStatus false parts).partitions) := by
  refine ⟨rfl, rfl, ?_⟩
  intro hmem hsid hcs
  unfold execStatus
  simp only [List.mem_filterMap]
  refine ⟨p, hmem, ?_⟩
  simp [probeSessionFields, hsid, probeAggregatedState, hcs]

/-- C9 applied at a concrete input: the partition whose probes all throw is
reported with session status unknown and state Undefined, and the reply status
is ok. -/
theorem C9_witness :
    ({ pid := "p"
       sessionId := ""
       sessionStatus := DDSSessionStatus.unknown
       aggregatedState := AggregatedState.state DeviceState.Undefined } : PartitionStatus)
      ∈ (execStatus false [throwingStatusPartition]).partitions
    ∧ (execStatus false [throwingStatusPartition]).statusCode = StatusCode.ok := by
  refine ⟨?_, (C9_statusAlwaysOk false [throwingStatusPartition] throwingStatusPartition
    "probe failed").1⟩
  exact (C9_statusAlwaysOk false [throwingStatusPartition] throwingStatusPartition
    "probe failed").2.2 (List.mem_singleton.mpr rfl) rfl rfl


theorem mem_insertFailed_of_mem (failed : List Nat) (u t : Nat) (h : t ∈ failed) :
    t ∈ insertFailed failed u := by
  unfold insertFailed
  by_cases hc : u ∈ failed
  · simp [hc, h]
  · simp [hc]
    exact Or.inr h

theorem mem_insertFailed_self (failed : List Nat) (t : Nat) :
    t ∈ insertFailed failed t := by
  unfold insertFailed
  by_cases hc : t ∈ failed
  · simp [hc]
  · simp [hc]

theorem mem_foldl_insertFailed_of_mem_init (l : List Nat) (init : List Nat) (t : Nat)
    (h : t ∈ init) : t ∈ l.foldl insertFailed init := by
  induction l generalizing init with
  | nil => simpa using h
  | cons x xs ih => exact ih (insertFailed init x) (mem_insertFailed_of_mem init x t h)

theorem mem_foldl_insertFailed_of_mem (l : List Nat) (init : List Nat) (t : Nat)
    (h : t ∈ l) : t ∈ l.foldl insertFailed init := by
  induction l generalizing init with
  | nil => simp at h
  | cons x xs ih =>
    rcases List.mem_cons.mp h with h1 | h2
    · subst h1
      exact mem_foldl_insertFailed_of_mem_init xs (insertFailed init t) t
        (mem_insertFailed_self init t)
    · exact ih (insertFailed init x) h2

theorem opStep_fixed_of_completed (op : GetPropsOp) (hc : op.completed ≠ none)
    (ha : op.timerArmed = false) (ev : OpEvent) : opStep op ev = op := by
  cases ev with
  | update taskId resultOk props =>
    unfold opStep opUpdate
    simp [hc]
  | ignore taskId =>
    unfold opStep opIgnore
    simp [hc]
  | timerFire =>
    unfold opStep opTimerFire
    simp [ha]

theorem opRun_fixed_of_completed (op : GetPropsOp) (hc : op.completed ≠ none)
    (ha : op.timerArmed = false) (events : List OpEvent) : opRun op events = op := by
  induction events with
  | nil => rfl
  | cons e es ih =>
    unfold opRun
    rw [List.foldl_cons, opStep_fixed_of_completed op hc ha e]
    exact ih

/-- C7: confirmed.  When the deadline timer of an outstanding GetProperties
operation fires, every still-pending task id is moved to the failed set (the
recorded results and previous failures are kept) and the operation completes
with Timeout; afterwards no event sequence changes the operation again, so it
completes exactly once; replies for a completed operation or for a task id
outside the pending set are discarded without any state change. -/
theorem C7_timerFire (op : GetPropsOp) (taskId : Nat) (resultOk : Bool)
    (props : String) (events : List OpEvent) :
    (op.timerArmed = true →
        (opTimerFire op).completed = some OpCompletion.timeout
        ∧ (∀ t ∈ op.tasks, t ∈ (opTimerFire op).failed)
        ∧ (∀ t ∈ op.failed, t ∈ (opTimerFire op).failed)
        ∧ (opTimerFire op).devices = op.devices
        ∧ opRun (opTimerFire op) events = opTimerFire op)
    ∧ (op.completed ≠ none →
        opUpdate op taskId resultOk props = op ∧ opIgnore op taskId = op)
    ∧ (¬op.tasks.contains taskId → opUpdate op taskId resultOk props = op) := by
  refine ⟨?_, ?_, ?_⟩
  · intro ha
    have hfire : opTimerFire op = { op with
        failed := op.tasks.foldl insertFailed op.failed
        timerArmed := false
        completed := some OpCompletion.timeout } := by
      unfold opTimerFire
      rw [if_pos ha]
    refine ⟨by rw [hfire], ?_, ?_, by rw [hfire], ?_⟩
    · intro t ht
      rw [hfire]
      exact mem_foldl_insertFailed_of_mem op.tasks op.failed t ht
    · intro t ht
      rw [hfire]
      exact mem_foldl_insertFailed_of_mem_init op.tasks op.failed t ht
    · refine opRun_fixed_of_completed (opTimerFire op) ?_ ?_ events
      · rw [hfire]
        simp
      · rw [hfire]
  · intro hc
    constructor
    · unfold opUpdate
      simp [hc]
    · unfold opIgnore
      simp [hc]
  · intro hnc
    have hnc2 : ¬(taskId ∈ op.tasks) := by simpa using hnc
    unfold opUpdate
    simp [hnc2]

/-- C7 applied at a concrete input: after the timer of an operation over
tasks 1 and 2 fires, the operation is completed with Timeout, task 1 is in the
failed set, and late update, ignore and timer events leave it unchanged. -/
theorem C7_witness :
    (opTimerFire (mkGetPropertiesOp [1, 2] 100)).completed = some OpCompletion.timeout
    ∧ (1 ∈ (opTimerFire (mkGetPropertiesOp [1, 2] 100)).failed)
    ∧ opRun (opTimerFire (mkGetPropertiesOp [1, 2] 100))
        [OpEvent.update 1 true "v", OpEvent.ignore 2, OpEvent.timerFire]
        = opTimerFire (mkGetPropertiesOp [1, 2] 100)
    ∧ opUpdate (opTimerFire (mkGetPropertiesOp [1, 2] 100)) 1 true "v"
        = opTimerFire (mkGetPropertiesOp [1, 2] 100) := by
  have h := C7_timerFire (mkGetPropertiesOp [1, 2] 100) 1 true "v"
    [OpEvent.update 1 true "v", OpEvent.ignore 2, OpEvent.timerFire]
  have h1 := h.1 (by decide)
  refine ⟨h1.1, h1.2.1 1 (by decide), h1.2.2.2.2, ?_⟩
  exact ((C7_timerFire (opTimerFire (mkGetPropertiesOp [1, 2] 100)) 1 true "v" []).2.1
    (by decide)).1

theorem opStep_inert (op : GetPropsOp) (ht : op.tasks = []) (ha : op.timerArmed = false)
    (ev : OpEvent) : opStep op ev = op := by
  cases ev with
  | update taskId resultOk props =>
    unfold opStep opUpdate
    simp [ht]
  | ignore taskId =>
    unfold opStep opIgnore
    simp [ht]
  | timerFire =>
    unfold opStep opTimerFire
    simp [ha]

/-- C10: confirmed.  A GetProperties operation is never completed by its
constructor, also over an empty task set; the deadline timer is armed exactly
for a strictly positive timeout; and with a non-positive timeout the empty
operation is never changed by any event sequence, so it never
self-completes. -/
theorem C10_emptyOpConstruction (tasks : List Nat) (timeoutMs : Int)
    (events : List OpEvent) :
    (mkGetPropertiesOp tasks timeoutMs).completed = none
    ∧ ((mkGetPropertiesOp tasks timeoutMs).timerArmed = true ↔ 0 < timeoutMs)
    ∧ (timeoutMs ≤ 0 →
        opRun (mkGetPropertiesOp [] timeoutMs) events = mkGetPropertiesOp [] timeoutMs
        ∧ (opRun (mkGetPropertiesOp [] timeoutMs) events).completed = none) := by
  refine ⟨rfl, by simp [mkGetPropertiesOp], ?_⟩
  intro hle
  have ha : (mkGetPropertiesOp ([] : List Nat) timeoutMs).timerArmed = false := by
    simp [mkGetPropertiesOp]
    omega
  have hfix : opRun (mkGetPropertiesOp [] timeoutMs) events
      = mkGetPropertiesOp [] timeoutMs := by
    induction events with
    | nil => rfl
    | cons e es ih =>
      unfold opRun
      rw [List.foldl_cons, opStep_inert (mkGetPropertiesOp [] timeoutMs) rfl ha e]
      exact ih
  exact ⟨hfix, by rw [hfix]; rfl⟩

/-- C10 applied at a concrete input: the empty-task operation with timeout 0
is not completed, has no armed timer, and is unchanged by a sequence of
update, timer and ignore events. -/
theorem C10_witness :
    (mkGetPropertiesOp ([] : List Nat) 0).completed = none
    ∧ ((mkGetPropertiesOp ([] : List Nat) 0).timerArmed = false)
    ∧ opRun (mkGetPropertiesOp ([] : List Nat) 0)
        [OpEvent.update 1 true "v", OpEvent.timerFire, OpEvent.ignore 1]
        = mkGetPropertiesOp ([] : List Nat) 0 := by
  have h := C10_emptyOpConstruction ([] : List Nat) 0
    [OpEvent.update 1 true "v", OpEvent.timerFire, OpEvent.ignore 1]
  refine ⟨h.1, ?_, (h.2.2 (by norm_num)).1⟩
  have h2 := h.2.1
  by_cases hb : (mkGetPropertiesOp ([] : List Nat) 0).timerArmed = true
  · exact absurd (h2.mp hb) (by norm_num)
  · simpa using hb


theorem findEnsure_isSome (st : CtrlState) (pid : String) :
    ((ensureSession st pid).sessions.find? (fun p => p.1 = pid)).isSome := by
  unfold ensureSession
  by_cases h : (st.sessions.find? (fun p => p.1 = pid)).isSome
  · simp [h]
  · simp only [h, if_false, Bool.false_eq_true]
    rw [List.find?_append]
    simp

theorem ensureSession_of_isSome (st : CtrlState) (pid : String)
    (h : (st.sessions.find? (fun p => p.1 = pid)).isSome = true) :
    ensureSession st pid = st := by
  unfold ensureSession
  rw [if_pos h]

theorem ensureSession_idem (st : CtrlState) (pid : String) :
    ensureSession (ensureSession st pid) pid = ensureSession st pid :=
  ensureSession_of_isSome _ _ (findEnsure_isSome st pid)

theorem ensureSession_restoreFile (st : CtrlState) (pid : String) :
    (ensureSession st pid).restoreFile = st.restoreFile := by
  unfold ensureSession
  by_cases h : (st.sessions.find? (fun p => p.1 = pid)).isSome <;> simp [h]

theorem setSession_restoreFile (st : CtrlState) (pid : String) (i : SessionInfo) :
    (setSession st pid i).restoreFile = st.restoreFile := by
  unfold setSession
  simp [ensureSession_restoreFile]

theorem findSet_isSome (st : CtrlState) (pid : String) (i : SessionInfo) :
    ((setSession st pid i).sessions.find? (fun p => p.1 = pid)).isSome := by
  unfold setSession
  simp only []
  have h := findEnsure_isSome st pid
  rw [List.find?_isSome] at h
  obtain ⟨x, hx, hpx⟩ := h
  rw [List.find?_isSome]
  refine ⟨(pid, i), ?_, by simp⟩
  rw [List.mem_map]
  refine ⟨x, hx, ?_⟩
  simp [of_decide_eq_true hpx]

theorem shutdownDDSSession_state (env : DDSEnv) (st : CtrlState) (pid : String) :
    ∃ i, (shutdownDDSSession env st pid).state = setSession st pid i := by
  simp only [shutdownDDSSession]
  split_ifs <;> exact ⟨_, rfl⟩

/-- C4: corrected.  Counterexample to the claim as stated: after Initialize
with an empty session id followed by Shutdown, the registry still holds the
partition entry (with a stopped session) and the restore file still holds the
pair written by Initialize — execShutdown neither removes the partition nor
rewrites the restore file. -/
theorem C4_counterexample :
    ((execShutdown sampleEnv (execInit sampleEnv emptyCtrlState "p" "").1 "p").1).sessions
      = [("p", { sessionId := "", running := false, hasDDSTopo := false,
                 hasTopology := false, topoFilePath := "" })]
    ∧ ((execShutdown sampleEnv (execInit sampleEnv emptyCtrlState "p" "").1 "p").1).restoreFile
      = [("p", "s1")] := by
  constructor <;> rfl

/-- C4 amended: for every environment and starting state, Initialize with an
empty session id followed by Shutdown leaves the partition entry in the
registry, and leaves the restore file exactly as Initialize last wrote it:
Shutdown never rewrites it. -/
theorem C4_amended (env : DDSEnv) (st : CtrlState) (pid : String) :
    (((execShutdown env (execInit env st pid "").1 pid).1).sessions.find?
        (fun q => q.1 = pid)).isSome = true
    ∧ ((execShutdown env (execInit env st pid "").1 pid).1).restoreFile
      = ((execInit env st pid "").1).restoreFile := by
  obtain ⟨i, hi⟩ := shutdownDDSSession_state env ((execInit env st pid "").1) pid
  have hset := findSet_isSome ((execInit env st pid "").1) pid i
  have hens : ensureSession (setSession ((execInit env st pid "").1) pid i) pid
      = setSession ((execInit env st pid "").1) pid i :=
    ensureSession_of_isSome _ _ hset
  constructor
  · show ((ensureSession (shutdownDDSSession env ((execInit env st pid "").1) pid).state
        pid).sessions.find? (fun q => q.1 = pid)).isSome = true
    rw [hi, hens]
    exact hset
  · show (ensureSession (shutdownDDSSession env ((execInit env st pid "").1) pid).state
        pid).restoreFile = ((execInit env st pid "").1).restoreFile
    rw [hi, hens, setSession_restoreFile]


theorem execInit_shape (env : DDSEnv) (st : CtrlState) (pid sid : String) :
    ∃ st2 e, execInit env st pid sid
      = createRequestResult st2 pid e "Initialize done"
          (AggregatedState.state DeviceState.Undefined) :=
  ⟨_, _, rfl⟩

theorem execSubmit_shape (env : DDSEnv) (st : CtrlState) (pid : String) :
    ∃ st2 e, execSubmit env st pid
      = createRequestResult st2 pid e "Submit done"
          (AggregatedState.state DeviceState.Undefined) :=
  ⟨_, _, rfl⟩

theorem execActivate_shape (env : DDSEnv) (st : CtrlState) (pid f c s : String) :
    ∃ st2 e, execActivate env st pid f c s
      = createRequestResult st2 pid e "Activate done"
          (if e.isSome then AggregatedState.state DeviceState.Undefined
           else AggregatedState.state DeviceState.Idle) :=
  ⟨_, _, rfl⟩

theorem crr_fst (st2 : CtrlState) (pid : String) (e : Option ErrorCode) (m : String)
    (a : AggregatedState) :
    (createRequestResult st2 pid e m a).1 = ensureSession st2 pid := rfl

theorem crr_error (st2 : CtrlState) (pid : String) (e : Option ErrorCode) (m : String)
    (a : AggregatedState) :
    (createRequestResult st2 pid e m a).2.error = e := rfl

theorem crr_status (st2 : CtrlState) (pid : String) (e : Option ErrorCode) (m : String)
    (a : AggregatedState) :
    (createRequestResult st2 pid e m a).2.statusCode
      = if e.isSome then StatusCode.error else StatusCode.ok := rfl

theorem crr_sid (st2 : CtrlState) (pid : String) (e : Option ErrorCode) (m : String)
    (a : AggregatedState) :
    (createRequestResult st2 pid e m a).2.sessionId
      = (getSession (ensureSession st2 pid) pid).sessionId := rfl

theorem crr_aggr (st2 : CtrlState) (pid : String) (e : Option ErrorCode) (m : String)
    (a : AggregatedState) :
    (createRequestResult st2 pid e m a).2.aggregatedState = a := rfl

/-- C3: confirmed.  Run with an empty session id is equivalent to Initialize
with an empty session id, then Submit, then Activate: the final controller
states coincide, and the reply carries the same error, status code, session id
and aggregated state as the reply of the step at which the sequence stopped
(the Activate reply on success); each step runs only when the previous one
left no error. -/
theorem C3_runEquivSequence (env : DDSEnv) (st : CtrlState) (pid f c s : String) :
    (execRun env st pid "" f c s).1 = (runSpecSequence env st pid f c s).1
    ∧ (execRun env st pid "" f c s).2.error = (runSpecSequence env st pid f c s).2.error
    ∧ (execRun env st pid "" f c s).2.statusCode
        = (runSpecSequence env st pid f c s).2.statusCode
    ∧ (execRun env st pid "" f c s).2.sessionId
        = (runSpecSequence env st pid f c s).2.sessionId
    ∧ (execRun env st pid "" f c s).2.aggregatedState
        = (runSpecSequence env st pid f c s).2.aggregatedState := by
  obtain ⟨stI, eI, hI⟩ := execInit_shape env st pid ""
  simp only [execRun, runSpecSequence, hI, crr_fst, crr_error, crr_status, crr_sid, crr_aggr]
  cases eI with
  | some e =>
    simp [crr_fst, crr_error, crr_status, crr_sid, crr_aggr, ensureSession_idem]
  | none =>
    obtain ⟨stS, eS, hS⟩ := execSubmit_shape env (ensureSession stI pid) pid
    simp only [hS, crr_fst, crr_error, crr_status, crr_sid, crr_aggr]
    cases eS with
    | some e =>
      simp [crr_fst, crr_error, crr_status, crr_sid, crr_aggr, ensureSession_idem]
    | none =>
      obtain ⟨stA, eA, hA⟩ := execActivate_shape env (ensureSession stS pid) pid f c s
      simp only [hA, crr_fst, crr_error, crr_status, crr_sid, crr_aggr]
      cases eA with
      | some e =>
        simp [crr_fst, crr_error, crr_status, crr_sid, crr_aggr, ensureSession_idem]
      | none =>
        simp [crr_fst, crr_error, crr_status, crr_sid, crr_aggr, ensureSession_idem]


end ODC
